import Mathlib

/-!
Shallow embedding of the risk-gated order pipeline of the QuantKing trading
engine (C++ sources: the domain-model header defining `Order`, `Position`,
`Portfolio` and the `risk_manager.cpp` translation unit, plus the
`TradingEngine` control loop in `main.cpp`).

Numeric model: the C++ code computes with IEEE-754 `double`.  All quantities
appearing in the verified claims are sums, products and divisions of small
decimal values, so finite values are modelled exactly as rationals (`ℚ`);
rounding is immaterial to every claim below.  The one place where IEEE
semantics is essential is division, because `checkOrderRisk` divides by a
portfolio value that can be zero and C++ floating-point division does not
throw: `x / 0` is `+inf` (x > 0), `-inf` (x < 0) or NaN (x = 0), and every
ordered comparison against NaN is false.  Division results are therefore
modelled by the dedicated type `DivResult` below, faithful to IEEE-754 for
zero denominators.
-/

namespace Trading

/-- Result of an IEEE-754 double division as used in `checkOrderRisk`:
either a finite value (modelled exactly as a rational), `+inf`, `-inf`,
or NaN. -/
inductive DivResult where
  | fin (q : ℚ)
  | posInf
  | negInf
  | nan
deriving DecidableEq

/-- IEEE-754 division of two finite values (`x / y` in the C++ source):
exact when the denominator is nonzero; for a zero denominator the result is
`+inf`, `-inf` or NaN according to the sign of the numerator.  No exception
is ever raised — this is why the `try`/`catch` in `checkOrderRisk` never
fires on a degenerate zero portfolio value. -/
def ddiv (x y : ℚ) : DivResult :=
  if y ≠ 0 then .fin (x / y)
  else if 0 < x then .posInf
  else if x < 0 then .negInf
  else .nan

/-- The C++ comparison `d > limit` where `d` is a division result and
`limit` a finite double: false whenever `d` is NaN (IEEE ordered comparisons
with NaN are false), true for `+inf`, false for `-inf`. -/
def DivResult.gtQ : DivResult → ℚ → Bool
  | .fin q, l => decide (l < q)
  | .posInf, _ => true
  | .negInf, _ => false
  | .nan, _ => false

/-- Order side, from `enum class OrderSide`. -/
inductive OrderSide where
  | BUY
  | SELL
deriving DecidableEq

/-- Order type, from `enum class OrderType`. -/
inductive OrderType where
  | MARKET
  | LIMIT
  | STOP
  | STOP_LIMIT
deriving DecidableEq

/-- Order status, from `enum class OrderStatus`. -/
inductive OrderStatus where
  | PENDING
  | FILLED
  | PARTIALLY_FILLED
  | CANCELLED
  | REJECTED
deriving DecidableEq

/-- The `Order` class: identifier, immutable symbol/side/type/quantity, and
the mutable fields with their C++ member initializers (`price_ = 0.0`,
`filled_quantity_ = 0.0`, `status_ = OrderStatus::PENDING`). Timestamps are
not modelled (no claim mentions them). -/
structure Order where
  order_id : String
  symbol : String
  side : OrderSide
  type : OrderType
  quantity : ℚ
  price : ℚ
  filled_quantity : ℚ
  status : OrderStatus
deriving DecidableEq

/-- `Order::generateOrderId`: a static counter is pre-incremented and the id
is the string `"ORD" + std::to_string(++counter)`.  The static counter is
modelled by explicit state passing: given the current counter value the
function returns the fresh id and the new counter value. -/
def generateOrderId (counter : ℕ) : String × ℕ :=
  ("ORD" ++ Nat.repr (counter + 1), counter + 1)

/-- The `Order` constructor: stores symbol, side, type and quantity as given
(there is no validation of any argument), generates a fresh id, and leaves
the remaining fields at their member initializers. -/
def Order.construct (counter : ℕ) (symbol : String) (side : OrderSide)
    (type : OrderType) (quantity : ℚ) : Order × ℕ :=
  ({ order_id := (generateOrderId counter).1
     symbol := symbol
     side := side
     type := type
     quantity := quantity
     price := 0
     filled_quantity := 0
     status := OrderStatus.PENDING }, (generateOrderId counter).2)

/-- `Order::setPrice`. -/
def Order.setPrice (o : Order) (price : ℚ) : Order :=
  { o with price := price }

/-- The `Position` class: symbol, running net quantity and average price,
both zero-initialized. -/
structure Position where
  symbol : String
  quantity : ℚ
  average_price : ℚ
deriving DecidableEq

/-- `Position::Position(symbol)`. -/
def Position.new (symbol : String) : Position :=
  { symbol := symbol, quantity := 0, average_price := 0 }

/-- `Position::updatePosition(quantity, price)`: first `quantity_ += quantity`;
then, whenever the new quantity is nonzero, the average price is recomputed by
the blend formula `(average_price_ * (quantity_ - quantity) + price * quantity)
/ quantity_` (note: at that point `quantity_ - quantity` is the old quantity).
The division is by the nonzero new quantity, hence finite and exact. -/
def Position.updatePosition (p : Position) (quantity price : ℚ) : Position :=
  let q := p.quantity + quantity
  if q ≠ 0 then
    { p with quantity := q
             average_price := (p.average_price * (q - quantity) + price * quantity) / q }
  else
    { p with quantity := q }

/-- `Position::getMarketValue(current_price)`. -/
def Position.getMarketValue (p : Position) (current_price : ℚ) : ℚ :=
  p.quantity * current_price

/-- `Position::getUnrealizedPnL(current_price)`. -/
def Position.getUnrealizedPnL (p : Position) (current_price : ℚ) : ℚ :=
  p.quantity * (current_price - p.average_price)

/-- A `std::map<std::string, double>` of prices, modelled as an association
list; `std::map::find` is `List.lookup`. -/
abbrev PriceMap := List (String × ℚ)

/-- Insert-or-assign on an association list, modelling `std::map::operator[]`
followed by assignment (keyed maps; iteration order is irrelevant to every
claim since rational addition is commutative). -/
def setAssoc {α : Type} : List (String × α) → String → α → List (String × α)
  | [], k, v => [(k, v)]
  | (k', v') :: rest, k, v =>
    if k' = k then (k, v) :: rest else (k', v') :: setAssoc rest k v

/-- The `Portfolio` class: cash initialized to 1,000,000, a symbol-keyed map
of positions, and five private aggregate fields with their member
initializers (`total_exposure_ = 0`, `drawdown_ = 0`, `leverage_ = 1`,
`daily_pnl_ = 0`, `concentration_ = 0`).  The class has no member function
that writes any of the five aggregates. -/
structure Portfolio where
  cash : ℚ
  positions : List (String × Position)
  total_exposure : ℚ
  drawdown : ℚ
  leverage : ℚ
  daily_pnl : ℚ
  concentration : ℚ
deriving DecidableEq

/-- A freshly constructed `Portfolio` with all member initializers. -/
def Portfolio.init : Portfolio :=
  { cash := 1000000
    positions := []
    total_exposure := 0
    drawdown := 0
    leverage := 1
    daily_pnl := 0
    concentration := 0 }

/-- `Portfolio::updatePosition(symbol, quantity, price)`: lazily creates the
position if absent, then delegates to `Position::updatePosition`. -/
def Portfolio.updatePosition (p : Portfolio) (symbol : String)
    (quantity price : ℚ) : Portfolio :=
  let pos := match p.positions.lookup symbol with
    | some q => q
    | none => Position.new symbol
  { p with positions := setAssoc p.positions symbol (pos.updatePosition quantity price) }

/-- `Portfolio::getTotalValue(current_prices)`: starts from cash and, looping
over held positions, adds the market value at the mapped price only when
`current_prices.find(symbol)` succeeds; positions without a current price are
skipped. -/
def Portfolio.getTotalValue (p : Portfolio) (current_prices : PriceMap) : ℚ :=
  p.positions.foldl
    (fun total sp =>
      match current_prices.lookup sp.1 with
      | some pr => total + sp.2.getMarketValue pr
      | none => total)
    p.cash

/-- `Portfolio::updateCash(amount)`: `cash_ += amount`. -/
def Portfolio.updateCash (p : Portfolio) (amount : ℚ) : Portfolio :=
  { p with cash := p.cash + amount }

/-- `Portfolio::getPosition(symbol)`: the shared pointer (null when absent)
is modelled as an `Option`. -/
def Portfolio.getPosition (p : Portfolio) (symbol : String) : Option Position :=
  p.positions.lookup symbol

/-- The `RiskLimits` configuration: the five fields read by
`risk_manager.cpp` (`max_position_size`, `max_leverage`, `max_drawdown`,
`daily_loss_limit`, `position_concentration`), immutable after
construction.  Finite configuration doubles are modelled as rationals. -/
structure RiskLimits where
  max_position_size : ℚ
  max_leverage : ℚ
  max_drawdown : ℚ
  daily_loss_limit : ℚ
  position_concentration : ℚ
deriving DecidableEq

/-- The `RiskManager` state: the limit configuration and the two
mutex-guarded maps `current_prices_` and `current_metrics_`. -/
structure RiskManager where
  limits : RiskLimits
  current_prices : PriceMap
  current_metrics : List (String × ℚ)
deriving DecidableEq

/-- `RiskManager::RiskManager(limits)`: both maps start empty. -/
def RiskManager.new (limits : RiskLimits) : RiskManager :=
  { limits := limits, current_prices := [], current_metrics := [] }

/-- Check 1 of `checkOrderRisk`: `position_value / portfolio_value >
limits_.max_position_size` with `position_value = order.getQuantity() *
order.getPrice()` and `portfolio_value = portfolio.getTotalValue
(current_prices_)`. -/
def positionSizeExceeded (rm : RiskManager) (order : Order) (portfolio : Portfolio) : Bool :=
  (ddiv (order.quantity * order.price)
    (portfolio.getTotalValue rm.current_prices)).gtQ rm.limits.max_position_size

/-- Check 2 of `checkOrderRisk`: `(portfolio.getTotalExposure() +
position_value) / portfolio_value > limits_.max_leverage`. -/
def leverageExceeded (rm : RiskManager) (order : Order) (portfolio : Portfolio) : Bool :=
  (ddiv (portfolio.total_exposure + order.quantity * order.price)
    (portfolio.getTotalValue rm.current_prices)).gtQ rm.limits.max_leverage

/-- Check 3 of `checkOrderRisk`: `portfolio.getDrawdown() >
limits_.max_drawdown` (a comparison of two finite doubles). -/
def drawdownExceeded (rm : RiskManager) (portfolio : Portfolio) : Bool :=
  decide (rm.limits.max_drawdown < portfolio.drawdown)

/-- Check 4 of `checkOrderRisk`: `portfolio.getDailyPnL() <
-limits_.daily_loss_limit`. -/
def dailyLossExceeded (rm : RiskManager) (portfolio : Portfolio) : Bool :=
  decide (portfolio.daily_pnl < -rm.limits.daily_loss_limit)

/-- The `new_concentration` value of check 5 of `checkOrderRisk`:
`new_position_size * order.getPrice() / portfolio_value` where
`new_position_size` is the existing position quantity in the order's symbol
(0 when the position pointer is null) plus the order quantity. -/
def newConcentration (rm : RiskManager) (order : Order) (portfolio : Portfolio) : DivResult :=
  let new_position_size :=
    (match portfolio.getPosition order.symbol with
     | some pos => pos.quantity
     | none => 0) + order.quantity
  ddiv (new_position_size * order.price) (portfolio.getTotalValue rm.current_prices)

/-- Check 5 of `checkOrderRisk`: `new_concentration >
limits_.position_concentration`. -/
def concentrationExceeded (rm : RiskManager) (order : Order) (portfolio : Portfolio) : Bool :=
  (newConcentration rm order portfolio).gtQ rm.limits.position_concentration

/-- `RiskManager::updateRiskMetrics(portfolio)` metric assignments: the four
named entries of `current_metrics_` are overwritten with the portfolio's
aggregate getters, in source order.  This models the body of the critical
section only; the locking behaviour of the method is modelled separately by
the lock-event trace below. -/
def RiskManager.updateRiskMetrics (rm : RiskManager) (portfolio : Portfolio) : RiskManager :=
  let m1 := setAssoc rm.current_metrics "drawdown" portfolio.drawdown
  let m2 := setAssoc m1 "leverage" portfolio.leverage
  let m3 := setAssoc m2 "daily_pnl" portfolio.daily_pnl
  let m4 := setAssoc m3 "concentration" portfolio.concentration
  { rm with current_metrics := m4 }

/-- `RiskManager::getRiskMetrics()`: returns `current_metrics_` by value
(a copy). -/
def RiskManager.getRiskMetrics (rm : RiskManager) : List (String × ℚ) :=
  rm.current_metrics

/-- `RiskManager::updateCurrentPrices(prices)`: wholesale replacement of the
price snapshot. -/
def RiskManager.updateCurrentPrices (rm : RiskManager) (prices : PriceMap) : RiskManager :=
  { rm with current_prices := prices }

/-- The decision computed by the five checks of `checkOrderRisk`, lines
170–211 of `risk_manager.cpp`: the first failing check returns false; if all
five pass, the accept branch is reached (source: `updateRiskMetrics(portfolio);
return true;`).  This is the pure decision; whether the call actually returns
is settled by `checkOrderRiskRun` and the lock model below. -/
def checkOrderRiskDecision (rm : RiskManager) (order : Order) (portfolio : Portfolio) : Bool :=
  if positionSizeExceeded rm order portfolio then false
  else if leverageExceeded rm order portfolio then false
  else if drawdownExceeded rm portfolio then false
  else if dailyLossExceeded rm portfolio then false
  else if concentrationExceeded rm order portfolio then false
  else true

/-- Execution of `RiskManager::checkOrderRisk(order, portfolio)` as observed
by the caller, returning `some (result, new manager state)` when the call
returns and `none` when it does not.  The five reject paths return `false`
without touching `current_metrics_` or `current_prices_`.  On the all-pass
path the source calls `updateRiskMetrics(portfolio)` while already holding
`mutex_`; `updateRiskMetrics` begins with `std::lock_guard<std::mutex>
lock(mutex_)` on the same non-recursive mutex, so the thread blocks on a
lock it itself holds (undefined behaviour per the C++ standard; a deadlock
on mainstream implementations) and the call never returns — modelled as
`none`.  The `catch` clause is dead: nothing in the evaluation throws
(floating-point division by zero does not throw in C++). -/
def checkOrderRiskRun (rm : RiskManager) (order : Order) (portfolio : Portfolio) :
    Option (Bool × RiskManager) :=
  if positionSizeExceeded rm order portfolio then some (false, rm)
  else if leverageExceeded rm order portfolio then some (false, rm)
  else if drawdownExceeded rm portfolio then some (false, rm)
  else if dailyLossExceeded rm portfolio then some (false, rm)
  else if concentrationExceeded rm order portfolio then some (false, rm)
  else none

/-- Lock events on the single `mutex_` of a `RiskManager`, as issued by one
thread. -/
inductive LockEvent where
  | acq
  | rel
deriving DecidableEq

/-- Single-thread semantics of a non-recursive mutex (`std::mutex`):
acquiring while already holding the lock never succeeds (the thread blocks
forever; per the C++ standard the behaviour is undefined) — modelled as
`none`.  A completed event sequence returns the final held state. -/
def runLock : Bool → List LockEvent → Option Bool
  | held, [] => some held
  | held, LockEvent.acq :: rest => if held then none else runLock true rest
  | _, LockEvent.rel :: rest => runLock false rest

/-- The sequence of `mutex_` events issued by one `checkOrderRisk` call, read
off the source: the `lock_guard` at entry acquires; a reject path just
releases at scope exit; the all-pass path first runs `updateRiskMetrics`,
whose own `lock_guard` acquires and releases the same mutex, before the outer
guard releases. -/
def checkOrderRiskLockTrace (allPass : Bool) : List LockEvent :=
  if allPass then [LockEvent.acq, LockEvent.acq, LockEvent.rel, LockEvent.rel]
  else [LockEvent.acq, LockEvent.rel]

/-- The lock trace of `checkOrderRisk` on a given input, driven by the
decision the five checks compute. -/
def checkOrderRiskTraceOf (rm : RiskManager) (order : Order) (portfolio : Portfolio) :
    List LockEvent :=
  checkOrderRiskLockTrace (checkOrderRiskDecision rm order portfolio)

/-- A strategy signal, from `Strategy::Signal` as used by the control loop:
symbol, side and a strength in `[0,1]`. -/
structure Signal where
  symbol : String
  side : OrderSide
  strength : ℚ
deriving DecidableEq

/-- `TradingEngine::calculateOrderSize(signal)`: `portfolio_value *
config_->getPositionSizeLimit() * signal.strength`. -/
def calculateOrderSize (portfolio : Portfolio) (prices : PriceMap)
    (position_size_limit strength : ℚ) : ℚ :=
  portfolio.getTotalValue prices * position_size_limit * strength

/-- `TradingEngine::createOrder(signal)`: constructs a MARKET order through
the four-argument `Order` constructor and never calls `setPrice`, so the
order reaches `checkOrderRisk` with the price field still at the 0
sentinel. -/
def createOrder (counter : ℕ) (sig : Signal) (portfolio : Portfolio)
    (prices : PriceMap) (position_size_limit : ℚ) : Order × ℕ :=
  Order.construct counter sig.symbol sig.side OrderType.MARKET
    (calculateOrderSize portfolio prices position_size_limit sig.strength)

/-- The two `Portfolio` mutators reachable in the core. -/
inductive PortfolioOp where
  | updatePos (symbol : String) (quantity price : ℚ)
  | updateCash (amount : ℚ)
deriving DecidableEq

/-- Apply one `Portfolio` operation. -/
def applyOp (p : Portfolio) : PortfolioOp → Portfolio
  | PortfolioOp.updatePos s q pr => p.updatePosition s q pr
  | PortfolioOp.updateCash a => p.updateCash a

/-- Apply a sequence of `Portfolio` operations to the freshly constructed
portfolio: exactly the portfolio states reachable in a run of the engine. -/
def applyOps (ops : List PortfolioOp) : Portfolio :=
  ops.foldl applyOp Portfolio.init

/-! Concrete instances used by the example scenario of the specification
(starting cash 1,000,000; limits 0.1 / 2.0 / 0.2 / 50,000 / 0.15; orders on
one symbol priced at 900) and by the counterexamples. -/

/-- The scenario limit configuration. -/
def scenarioLimits : RiskLimits :=
  { max_position_size := 1/10
    max_leverage := 2
    max_drawdown := 1/5
    daily_loss_limit := 50000
    position_concentration := 3/20 }

/-- A risk manager holding the scenario limits and a price snapshot with the
traded symbol at 900. -/
def scenarioRM : RiskManager :=
  { limits := scenarioLimits
    current_prices := [("AAPL", 900)]
    current_metrics := [] }

/-- Scenario order 1: 100 shares at 900 (notional 90,000). -/
def scenarioOrder1 : Order :=
  (Order.construct 0 "AAPL" OrderSide.BUY OrderType.MARKET 100).1.setPrice 900

/-- Scenario order 2: 50 more shares at 900. -/
def scenarioOrder2 : Order :=
  (Order.construct 1 "AAPL" OrderSide.BUY OrderType.MARKET 50).1.setPrice 900

/-- Scenario order 3: 20 more shares at 900, pushing the symbol
concentration to 15.3%. -/
def scenarioOrder3 : Order :=
  (Order.construct 2 "AAPL" OrderSide.BUY OrderType.MARKET 20).1.setPrice 900

/-- Portfolio after scenario order 1 fills: 100 shares at 900, cash debited,
total value still 1,000,000 at the snapshot price. -/
def scenarioP2 : Portfolio :=
  (Portfolio.init.updatePosition "AAPL" 100 900).updateCash (-90000)

/-- Portfolio after scenario order 2 fills: 150 shares at 900, total value
still 1,000,000 at the snapshot price. -/
def scenarioP3 : Portfolio :=
  (scenarioP2.updatePosition "AAPL" 50 900).updateCash (-45000)

/-- A portfolio whose total value is zero: all cash withdrawn, no
positions.  Reachable via `updateCash (-1000000)` from the initial state. -/
def zeroPortfolio : Portfolio :=
  Portfolio.init.updateCash (-1000000)

/-- A market order for 100 shares as the control loop builds it: the price
field still holds the 0 sentinel. -/
def marketOrder100 : Order :=
  (Order.construct 0 "AAPL" OrderSide.BUY OrderType.MARKET 100).1

/-- A limit order for 200 shares at 900 (notional 180,000, 18% of the
initial portfolio value). -/
def limitOrder200 : Order :=
  (Order.construct 0 "AAPL" OrderSide.BUY OrderType.LIMIT 200).1.setPrice 900

/-- The scenario limits with a negative position-size fraction, exercising
the claim that the checks reject for any configured limits. -/
def negSizeRM : RiskManager :=
  { limits := { scenarioLimits with max_position_size := -1 }
    current_prices := []
    current_metrics := [] }

/-- A long position of 10 shares opened at price 100. -/
def posAfterOpen : Position :=
  (Position.new "AAPL").updatePosition 10 100

/-! Helper lemmas. -/

/-- `Nat.digitChar` is injective below 10 (the decimal digit characters are
pairwise distinct). -/
theorem digitChar_inj_lt10 : ∀ a < 10, ∀ b < 10, Nat.digitChar a = Nat.digitChar b → a = b := by
  decide

/-- With enough fuel, `Nat.toDigitsCore` produces exactly the reversed
decimal digit list rendered through `Nat.digitChar`. -/
theorem toDigitsCore_eq_digits :
    ∀ (f n : ℕ) (ds : List Char), 0 < n → n < f →
      Nat.toDigitsCore 10 f n ds = ((Nat.digits 10 n).map Nat.digitChar).reverse ++ ds := by
  intro f
  induction f with
  | zero => intro n ds h0 hf; omega
  | succ f ih =>
    intro n ds h0 hf
    by_cases h : n / 10 = 0
    · have hn10 : n < 10 := (Nat.div_eq_zero_iff (by norm_num : 0 < 10)).1 h
      have hdig : Nat.digits 10 n = [n % 10] := by
        rw [Nat.digits_def' (by norm_num : 1 < 10) h0, h]
        simp
      simp [Nat.toDigitsCore, h, hdig, Nat.mod_eq_of_lt hn10]
    · have hpos : 0 < n / 10 := Nat.pos_of_ne_zero h
      have hlt : n / 10 < f := by
        have := Nat.div_lt_self h0 (by norm_num : 1 < 10)
        omega
      have hdig : Nat.digits 10 n = n % 10 :: Nat.digits 10 (n / 10) :=
        Nat.digits_def' (by norm_num : 1 < 10) h0
      simp only [Nat.toDigitsCore, h, if_false]
      rw [ih (n / 10) (Nat.digitChar (n % 10) :: ds) hpos hlt, hdig]
      simp

/-- `Nat.toDigits` in base 10 is the reversed image of `Nat.digits`. -/
theorem toDigits_eq_digits (n : ℕ) (h : 0 < n) :
    Nat.toDigits 10 n = ((Nat.digits 10 n).map Nat.digitChar).reverse := by
  rw [Nat.toDigits, toDigitsCore_eq_digits (n+1) n [] h (Nat.lt_succ_self n), List.append_nil]

/-- Mapping `Nat.digitChar` over lists of decimal digits is injective. -/
theorem map_digitChar_inj :
    ∀ (l1 l2 : List ℕ), (∀ x ∈ l1, x < 10) → (∀ x ∈ l2, x < 10) →
      l1.map Nat.digitChar = l2.map Nat.digitChar → l1 = l2 := by
  intro l1
  induction l1 with
  | nil => intro l2 _ _ h; cases l2 <;> simp_all
  | cons a t ih =>
    intro l2 h1 h2 h
    cases l2 with
    | nil => simp_all
    | cons b t2 =>
      simp only [List.map_cons, List.cons.injEq] at h
      have hab : a = b :=
        digitChar_inj_lt10 a (h1 a (by simp)) b (h2 b (by simp)) h.1
      subst hab
      have ht : t = t2 :=
        ih t2 (fun x hx => h1 x (by simp [hx])) (fun x hx => h2 x (by simp [hx])) h.2
      simp [ht]

/-- The rendered digit list of a positive number is never the single
character `0` (decimal renderings have no leading zero). -/
theorem digitsMap_ne_zeroChar (n : ℕ) (hn : 0 < n) :
    (Nat.digits 10 n).map Nat.digitChar ≠ ['0'] := by
  intro hmap
  have hdig : Nat.digits 10 n = [0] := by
    rcases hL : Nat.digits 10 n with _ | ⟨d, t⟩
    · rw [hL] at hmap; simp at hmap
    · rw [hL] at hmap
      simp only [List.map_cons, List.cons.injEq] at hmap
      have ht : t = [] := by
        have := hmap.2
        cases t <;> simp_all
      have hd10 : d < 10 := Nat.digits_lt_base (by norm_num) (by rw [hL]; simp)
      have hd0 : d = 0 := digitChar_inj_lt10 d hd10 0 (by norm_num) (by simpa using hmap.1)
      simp [ht, hd0]
  have hne : n ≠ 0 := by omega
  have := Nat.getLast_digit_ne_zero 10 hne
  simp [hdig] at this

/-- `Nat.repr` is injective: distinct numbers have distinct decimal
strings. -/
theorem natRepr_injective : Function.Injective Nat.repr := by
  intro m n h
  have h' : Nat.toDigits 10 m = Nat.toDigits 10 n := by
    have hd := congrArg String.data h
    simpa [Nat.repr, List.asString] using hd
  have h0 : Nat.toDigits 10 0 = ['0'] := by decide
  rcases Nat.eq_zero_or_pos m with hm | hm <;> rcases Nat.eq_zero_or_pos n with hn | hn
  · omega
  · exfalso
    subst hm
    rw [h0, toDigits_eq_digits n hn] at h'
    have hmap : (Nat.digits 10 n).map Nat.digitChar = ['0'] := by
      have := congrArg List.reverse h'
      simpa using this.symm
    exact digitsMap_ne_zeroChar n hn hmap
  · exfalso
    subst hn
    rw [h0, toDigits_eq_digits m hm] at h'
    have hmap : (Nat.digits 10 m).map Nat.digitChar = ['0'] := by
      have := congrArg List.reverse h'
      simpa using this
    exact digitsMap_ne_zeroChar m hm hmap
  · rw [toDigits_eq_digits m hm, toDigits_eq_digits n hn] at h'
    have hmap : (Nat.digits 10 m).map Nat.digitChar = (Nat.digits 10 n).map Nat.digitChar := by
      have := congrArg List.reverse h'
      simpa using this
    have hdig : Nat.digits 10 m = Nat.digits 10 n :=
      map_digitChar_inj _ _ (fun x hx => Nat.digits_lt_base (by norm_num) hx)
        (fun x hx => Nat.digits_lt_base (by norm_num) hx) hmap
    have := congrArg (Nat.ofDigits 10) hdig
    simpa [Nat.ofDigits_digits] using this

/-- Distinct counter values yield distinct order ids. -/
theorem generateOrderId_inj (c1 c2 : ℕ)
    (h : (generateOrderId c1).1 = (generateOrderId c2).1) : c1 = c2 := by
  simp only [generateOrderId] at h
  have hd := congrArg String.data h
  simp only [String.data_append] at hd
  have hdata : (Nat.repr (c1 + 1)).data = (Nat.repr (c2 + 1)).data :=
    List.append_cancel_left hd
  have hrepr : Nat.repr (c1 + 1) = Nat.repr (c2 + 1) := String.ext hdata
  have := natRepr_injective hrepr
  omega

/-- A zero numerator never exceeds a nonnegative limit, whatever the
denominator: for a nonzero denominator the quotient is exactly 0, and for a
zero denominator the IEEE result is NaN and the comparison is false. -/
theorem ddiv_zero_num_gtQ (V l : ℚ) (hl : 0 ≤ l) : (ddiv 0 V).gtQ l = false := by
  by_cases hV : V = 0
  · subst hV
    simp [ddiv, DivResult.gtQ]
  · simp only [ddiv, ne_eq, hV, not_false_eq_true, if_true, zero_div, DivResult.gtQ]
    simp only [decide_eq_false_iff_not, not_lt]
    exact hl

/-! Claim theorems. -/

/-- C4 (code evaluated at the failing inputs): `Position.updatePosition`
applies the blend formula on every nonzero resulting quantity.  Opening a
long position of 10 at 100 gives average price 100 (the blend on a
same-direction increase, as claimed).  But reducing it by 5 at trade price
110 rewrites the remainder's average price to 90 instead of preserving 100,
and flipping it by −15 at 110 yields average price 130 instead of resetting
to the flipping trade's price 110 — both contradicting the claim.  A trade
netting the quantity to exactly zero does leave quantity 0. -/
theorem updatePosition_blend_at_reduce_and_flip :
    posAfterOpen.quantity = 10 ∧ posAfterOpen.average_price = 100 ∧
    (posAfterOpen.updatePosition (-5) 110).quantity = 5 ∧
    (posAfterOpen.updatePosition (-5) 110).average_price = 90 ∧
    (posAfterOpen.updatePosition (-15) 110).quantity = -5 ∧
    (posAfterOpen.updatePosition (-15) 110).average_price = 130 ∧
    (posAfterOpen.updatePosition (-10) 105).quantity = 0 := by
  refine ⟨?_, ?_, ?_, ?_, ?_, ?_, ?_⟩ <;>
    norm_num [posAfterOpen, Position.updatePosition, Position.new]

/-- C5 (code evaluated at the failing input): scenario order 1 (100 shares
at 900 against the fresh 1,000,000 portfolio) passes all five checks, so the
evaluation reaches the accept branch — but there `checkOrderRisk` calls
`updateRiskMetrics` while still holding the non-recursive `mutex_`, whose
own lock guard re-acquires that mutex: the nested acquire never succeeds, so
the call never returns and no metrics refresh is ever observed.  The claim's
promised accept-with-refreshed-metrics return does not happen. -/
theorem checkOrderRisk_accept_path_never_returns :
    checkOrderRiskDecision scenarioRM scenarioOrder1 Portfolio.init = true ∧
    checkOrderRiskRun scenarioRM scenarioOrder1 Portfolio.init = none ∧
    runLock false (checkOrderRiskLockTrace true) = none := by
  refine ⟨?_, ?_, ?_⟩
  · norm_num [checkOrderRiskDecision, positionSizeExceeded, leverageExceeded,
      drawdownExceeded, dailyLossExceeded, concentrationExceeded, newConcentration, ddiv,
      DivResult.gtQ, scenarioRM, scenarioLimits, scenarioOrder1, Order.construct, Order.setPrice,
      Portfolio.init, Portfolio.getTotalValue, Portfolio.getPosition, Position.getMarketValue]
  · norm_num [checkOrderRiskRun, positionSizeExceeded, leverageExceeded,
      drawdownExceeded, dailyLossExceeded, concentrationExceeded, newConcentration, ddiv,
      DivResult.gtQ, scenarioRM, scenarioLimits, scenarioOrder1, Order.construct, Order.setPrice,
      Portfolio.init, Portfolio.getTotalValue, Portfolio.getPosition, Position.getMarketValue]
  · decide

/-- C10: the lock discipline of `checkOrderRisk` on its own mutex.  Whenever
the five checks reject, the method's lock trace (acquire at entry, release at
return) completes.  Whenever all five checks pass, the trace contains the
nested acquire issued by the `updateRiskMetrics` call made under the held
lock, and a non-recursive mutex acquired while already held never makes
progress: the call does not complete.  This refutes the completion part of
the claim for every accepted order. -/
theorem checkOrderRisk_lock_trace (rm : RiskManager) (o : Order) (p : Portfolio) :
    (checkOrderRiskDecision rm o p = true →
      runLock false (checkOrderRiskTraceOf rm o p) = none) ∧
    (checkOrderRiskDecision rm o p = false →
      runLock false (checkOrderRiskTraceOf rm o p) = some false) := by
  constructor
  · intro h
    simp [checkOrderRiskTraceOf, h, checkOrderRiskLockTrace, runLock]
  · intro h
    simp [checkOrderRiskTraceOf, h, checkOrderRiskLockTrace, runLock]

/-- C10 witness: scenario order 1 is all-pass, and its lock trace is stuck
on the nested acquire. -/
theorem checkOrderRisk_lock_trace_witness :
    checkOrderRiskDecision scenarioRM scenarioOrder1 Portfolio.init = true ∧
    runLock false (checkOrderRiskTraceOf scenarioRM scenarioOrder1 Portfolio.init) = none := by
  have hdec : checkOrderRiskDecision scenarioRM scenarioOrder1 Portfolio.init = true := by
    norm_num [checkOrderRiskDecision, positionSizeExceeded, leverageExceeded,
      drawdownExceeded, dailyLossExceeded, concentrationExceeded, newConcentration, ddiv,
      DivResult.gtQ, scenarioRM, scenarioLimits, scenarioOrder1, Order.construct, Order.setPrice,
      Portfolio.init, Portfolio.getTotalValue, Portfolio.getPosition, Position.getMarketValue]
  exact ⟨hdec, (checkOrderRisk_lock_trace scenarioRM scenarioOrder1 Portfolio.init).1 hdec⟩

/-- C1 counterexample: a market order (price still the 0 sentinel) against a
zero-value portfolio is NOT rejected: every division is `0 / 0 = NaN`, every
NaN comparison is false, all five checks pass (the decision is accept), and
the call then never returns a result at all — it does not return reject as
the claim requires. -/
theorem checkOrderRisk_zero_portfolio_counterexample :
    zeroPortfolio.getTotalValue scenarioRM.current_prices = 0 ∧
    marketOrder100.price = 0 ∧
    checkOrderRiskDecision scenarioRM marketOrder100 zeroPortfolio = true ∧
    checkOrderRiskRun scenarioRM marketOrder100 zeroPortfolio = none := by
  refine ⟨?_, ?_, ?_, ?_⟩ <;>
    norm_num [checkOrderRiskDecision, checkOrderRiskRun, positionSizeExceeded,
      leverageExceeded, drawdownExceeded, dailyLossExceeded, concentrationExceeded,
      newConcentration, ddiv, DivResult.gtQ, scenarioRM, scenarioLimits, marketOrder100,
      Order.construct, zeroPortfolio, Portfolio.init, Portfolio.updateCash,
      Portfolio.getTotalValue, Portfolio.getPosition, Position.getMarketValue]

/-- C1 as amended: on a portfolio whose total value under the manager's
price snapshot is zero, an order with strictly positive notional is rejected
at the position-size check (the division yields `+inf`, which exceeds any
finite limit), with no failure propagated — the call returns the reject
value normally and leaves the manager state untouched. -/
theorem checkOrderRisk_zero_portfolio_positive_notional_rejects
    (rm : RiskManager) (o : Order) (p : Portfolio)
    (hV : p.getTotalValue rm.current_prices = 0)
    (hq : 0 < o.quantity * o.price) :
    checkOrderRiskRun rm o p = some (false, rm) := by
  have h1 : positionSizeExceeded rm o p = true := by
    simp [positionSizeExceeded, hV, ddiv, hq, DivResult.gtQ]
  simp [checkOrderRiskRun, h1]

/-- C1 witness: a 200-share limit order at 900 against the zero-value
portfolio is rejected. -/
theorem checkOrderRisk_zero_portfolio_positive_notional_rejects_witness :
    zeroPortfolio.getTotalValue scenarioRM.current_prices = 0 ∧
    (0:ℚ) < limitOrder200.quantity * limitOrder200.price ∧
    checkOrderRiskRun scenarioRM limitOrder200 zeroPortfolio = some (false, scenarioRM) := by
  have hV : zeroPortfolio.getTotalValue scenarioRM.current_prices = 0 := by
    norm_num [zeroPortfolio, Portfolio.init, Portfolio.updateCash, Portfolio.getTotalValue,
      scenarioRM]
  have hq : (0:ℚ) < limitOrder200.quantity * limitOrder200.price := by
    norm_num [limitOrder200, Order.construct, Order.setPrice]
  exact ⟨hV, hq, checkOrderRisk_zero_portfolio_positive_notional_rejects _ _ _ hV hq⟩

/-- C2 counterexample: with a negative configured `max_position_size`, a
price-0 market order IS rejected on the position-size check (its zero
notional ratio 0 exceeds the negative limit), refuting the claim's "for any
configured limits". -/
theorem zero_price_order_rejected_on_size_counterexample :
    marketOrder100.price = 0 ∧
    positionSizeExceeded negSizeRM marketOrder100 Portfolio.init = true ∧
    checkOrderRiskRun negSizeRM marketOrder100 Portfolio.init = some (false, negSizeRM) := by
  refine ⟨?_, ?_, ?_⟩ <;>
    norm_num [checkOrderRiskRun, positionSizeExceeded, ddiv, DivResult.gtQ, negSizeRM,
      scenarioLimits, marketOrder100, Order.construct, Portfolio.init,
      Portfolio.getTotalValue]

/-- C2 as amended: for every order whose price is still the 0 sentinel (as
for every market order produced by `createOrder`, whose price conjunct is
included), and nonnegative configured size and concentration limits, the
position-size and concentration checks compute a zero notional and cannot
fire; such an order can only be rejected by the leverage, drawdown or
daily-loss checks. -/
theorem zero_price_order_passes_size_and_concentration
    (rm : RiskManager) (o : Order) (p : Portfolio)
    (hp : o.price = 0)
    (hs : 0 ≤ rm.limits.max_position_size)
    (hc : 0 ≤ rm.limits.position_concentration) :
    positionSizeExceeded rm o p = false ∧
    concentrationExceeded rm o p = false ∧
    (checkOrderRiskRun rm o p = some (false, rm) →
      leverageExceeded rm o p = true ∨ drawdownExceeded rm p = true ∨
        dailyLossExceeded rm p = true) ∧
    (∀ (c : ℕ) (sig : Signal) (pf : Portfolio) (pm : PriceMap) (frac : ℚ),
      (createOrder c sig pf pm frac).1.price = 0) := by
  have h1 : positionSizeExceeded rm o p = false := by
    rw [positionSizeExceeded, hp, mul_zero]
    exact ddiv_zero_num_gtQ _ _ hs
  have h5 : concentrationExceeded rm o p = false := by
    simp only [concentrationExceeded, newConcentration, hp, mul_zero]
    exact ddiv_zero_num_gtQ _ _ hc
  refine ⟨h1, h5, ?_, ?_⟩
  · intro hrun
    by_cases h2 : leverageExceeded rm o p = true
    · exact Or.inl h2
    by_cases h3 : drawdownExceeded rm p = true
    · exact Or.inr (Or.inl h3)
    by_cases h4 : dailyLossExceeded rm p = true
    · exact Or.inr (Or.inr h4)
    exfalso
    simp [checkOrderRiskRun, h1, h2, h3, h4, h5] at hrun
  · intro c sig pf pm frac
    simp [createOrder, Order.construct]

/-- C2 witness: the scenario limits are nonnegative, and the 100-share
market order cannot be rejected on size or concentration there; a
`createOrder` product carries the 0 price sentinel. -/
theorem zero_price_order_passes_size_and_concentration_witness :
    marketOrder100.price = 0 ∧
    (0:ℚ) ≤ scenarioRM.limits.max_position_size ∧
    (0:ℚ) ≤ scenarioRM.limits.position_concentration ∧
    positionSizeExceeded scenarioRM marketOrder100 Portfolio.init = false ∧
    concentrationExceeded scenarioRM marketOrder100 Portfolio.init = false ∧
    (createOrder 0 { symbol := "AAPL", side := OrderSide.BUY, strength := 1 }
      Portfolio.init [] (1/10)).1.price = 0 := by
  have hp : marketOrder100.price = 0 := by
    norm_num [marketOrder100, Order.construct]
  have hs : (0:ℚ) ≤ scenarioRM.limits.max_position_size := by
    norm_num [scenarioRM, scenarioLimits]
  have hc : (0:ℚ) ≤ scenarioRM.limits.position_concentration := by
    norm_num [scenarioRM, scenarioLimits]
  have hmain := zero_price_order_passes_size_and_concentration scenarioRM marketOrder100
    Portfolio.init hp hs hc
  exact ⟨hp, hs, hc, hmain.1, hmain.2.1,
    hmain.2.2.2 0 { symbol := "AAPL", side := OrderSide.BUY, strength := 1 }
      Portfolio.init [] (1/10)⟩

/-- C3: whenever the order's notional divided by the portfolio value
strictly exceeds `max_position_size` (under the IEEE comparison used by the
code), `checkOrderRisk` returns reject immediately — for every value of the
remaining limits and portfolio aggregates, so checks 2–5 cannot influence
the result — and the returned manager state is the input state: the stored
metrics mapping is untouched by the rejected call. -/
theorem position_size_reject_short_circuits
    (rm : RiskManager) (o : Order) (p : Portfolio)
    (h : (ddiv (o.quantity * o.price) (p.getTotalValue rm.current_prices)).gtQ
      rm.limits.max_position_size = true) :
    checkOrderRiskRun rm o p = some (false, rm) := by
  have h1 : positionSizeExceeded rm o p = true := h
  simp [checkOrderRiskRun, h1]

/-- C3 witness: the 200-share order at 900 (18% of the fresh portfolio,
above the 10% limit) is rejected with the manager state unchanged — a case
that would also fail no other check, rejected citing position size. -/
theorem position_size_reject_short_circuits_witness :
    (ddiv (limitOrder200.quantity * limitOrder200.price)
      (Portfolio.init.getTotalValue scenarioRM.current_prices)).gtQ
      scenarioRM.limits.max_position_size = true ∧
    checkOrderRiskRun scenarioRM limitOrder200 Portfolio.init = some (false, scenarioRM) := by
  have h : (ddiv (limitOrder200.quantity * limitOrder200.price)
      (Portfolio.init.getTotalValue scenarioRM.current_prices)).gtQ
      scenarioRM.limits.max_position_size = true := by
    norm_num [ddiv, DivResult.gtQ, limitOrder200, Order.construct, Order.setPrice,
      Portfolio.init, Portfolio.getTotalValue, scenarioRM, scenarioLimits]
  exact ⟨h, position_size_reject_short_circuits _ _ _ h⟩

/-- C6 counterexample: the `Order` constructor performs no quantity
validation — constructing with quantity −5 succeeds and yields a pending
order carrying the non-positive quantity, contradicting "construction fails
for every quantity ≤ 0". -/
theorem order_construct_nonpositive_quantity_counterexample :
    (Order.construct 0 "AAPL" OrderSide.BUY OrderType.MARKET (-5)).1.quantity = -5 ∧
    (Order.construct 0 "AAPL" OrderSide.BUY OrderType.MARKET (-5)).1.quantity ≤ 0 ∧
    (Order.construct 0 "AAPL" OrderSide.BUY OrderType.MARKET (-5)).1.status
      = OrderStatus.PENDING := by
  refine ⟨?_, ?_, ?_⟩ <;> norm_num [Order.construct]

/-- C6 as amended: `Order` construction never fails and validates nothing
(in particular an order with quantity ≤ 0 is constructible); every
constructed order stores the given symbol, side, type and quantity, has
status pending, filled quantity 0, price at the unset 0 sentinel, advances
the id counter by one, and its id is distinct from the id generated at any
other counter value (process-unique freshness). -/
theorem order_construct_fields (c : ℕ) (symbol : String) (side : OrderSide)
    (ty : OrderType) (q : ℚ) :
    (Order.construct c symbol side ty q).1.symbol = symbol ∧
    (Order.construct c symbol side ty q).1.side = side ∧
    (Order.construct c symbol side ty q).1.type = ty ∧
    (Order.construct c symbol side ty q).1.quantity = q ∧
    (Order.construct c symbol side ty q).1.status = OrderStatus.PENDING ∧
    (Order.construct c symbol side ty q).1.filled_quantity = 0 ∧
    (Order.construct c symbol side ty q).1.price = 0 ∧
    (Order.construct c symbol side ty q).2 = c + 1 ∧
    (∀ (c₂ : ℕ) (s₂ : String) (sd₂ : OrderSide) (ty₂ : OrderType) (q₂ : ℚ),
      c₂ ≠ c →
      (Order.construct c₂ s₂ sd₂ ty₂ q₂).1.order_id ≠
        (Order.construct c symbol side ty q).1.order_id) := by
  refine ⟨rfl, rfl, rfl, rfl, rfl, rfl, rfl, rfl, ?_⟩
  intro c₂ s₂ sd₂ ty₂ q₂ hne h
  exact hne (generateOrderId_inj c₂ c h)

/-- C6 witness: two constructions at different counter values carry distinct
ids, and the constructed order's price is the 0 sentinel. -/
theorem order_construct_fields_witness :
    (Order.construct 3 "AAPL" OrderSide.BUY OrderType.MARKET 7).1.price = 0 ∧
    (Order.construct 5 "MSFT" OrderSide.SELL OrderType.LIMIT 2).1.order_id ≠
      (Order.construct 3 "AAPL" OrderSide.BUY OrderType.MARKET 7).1.order_id := by
  have hmain := order_construct_fields 3 "AAPL" OrderSide.BUY OrderType.MARKET 7
  exact ⟨hmain.2.2.2.2.2.2.1,
    hmain.2.2.2.2.2.2.2.2 5 "MSFT" OrderSide.SELL OrderType.LIMIT 2 (by norm_num)⟩

/-- Unrolling the total-value fold: starting the loop at accumulator `a`
yields `a` plus the sum of market values of exactly those positions whose
symbol has an entry in the price map. -/
theorem getTotalValue_foldl_aux (prices : PriceMap) :
    ∀ (l : List (String × Position)) (a : ℚ),
      (l.foldl (fun total sp =>
        match prices.lookup sp.1 with
        | some pr => total + sp.2.getMarketValue pr
        | none => total) a)
      = a + ((l.filter (fun sp => (prices.lookup sp.1).isSome)).map
          (fun sp => sp.2.quantity * ((prices.lookup sp.1).getD 0))).sum := by
  intro l
  induction l with
  | nil => intro a; simp
  | cons x t ih =>
    intro a
    cases hx : prices.lookup x.1 with
    | none =>
      simp only [List.foldl_cons, List.filter_cons, hx]
      simp [ih]
    | some pr =>
      simp only [List.foldl_cons, List.filter_cons, hx]
      rw [ih]
      simp [Position.getMarketValue, hx]
      ring

/-- C7: `getTotalValue` returns cash plus the sum, over exactly those held
positions whose symbol has an entry in the supplied price map, of net
quantity times that price; and prepending a position whose symbol is absent
from the price map leaves the total unchanged (it contributes nothing and
causes no error — the function is total). -/
theorem getTotalValue_spec (p : Portfolio) (prices : PriceMap) :
    p.getTotalValue prices = p.cash +
      ((p.positions.filter (fun sp => (prices.lookup sp.1).isSome)).map
        (fun sp => sp.2.quantity * ((prices.lookup sp.1).getD 0))).sum ∧
    (∀ (sym : String) (pos : Position), prices.lookup sym = none →
      Portfolio.getTotalValue
        { p with positions := (sym, pos) :: p.positions } prices
        = p.getTotalValue prices) := by
  constructor
  · rw [Portfolio.getTotalValue]
    exact getTotalValue_foldl_aux prices p.positions p.cash
  · intro sym pos hnone
    simp only [Portfolio.getTotalValue, List.foldl_cons, hnone]

/-- C7 witness: at the portfolio holding 100 shares of the priced symbol,
the total value evaluates to cash plus the position's market value, and
prepending a position in an unpriced symbol changes nothing. -/
theorem getTotalValue_spec_witness :
    scenarioP2.getTotalValue scenarioRM.current_prices = 1000000 ∧
    List.lookup "MSFT" scenarioRM.current_prices = none ∧
    Portfolio.getTotalValue
      { scenarioP2 with positions := ("MSFT", Position.new "MSFT") :: scenarioP2.positions }
      scenarioRM.current_prices
      = scenarioP2.getTotalValue scenarioRM.current_prices := by
  have hnone : List.lookup "MSFT" scenarioRM.current_prices = none := by
    decide
  refine ⟨?_, hnone, ?_⟩
  · norm_num [scenarioP2, Portfolio.init, Portfolio.updatePosition, Portfolio.updateCash,
      Portfolio.getTotalValue, Position.updatePosition, Position.new, Position.getMarketValue,
      setAssoc, List.lookup, scenarioRM]
  · exact (getTotalValue_spec scenarioP2 scenarioRM.current_prices).2 "MSFT"
      (Position.new "MSFT") hnone

/-- C8 counterexample: the scenario's follow-on order (50 more shares at
900, symbol concentration 13.5%) passes all five checks, but the call is
not "accepted" as the claim states: the evaluation reaches the accept
branch and then never returns (nested acquisition of the held mutex). -/
theorem scenario_follow_on_not_accepted_counterexample :
    checkOrderRiskDecision scenarioRM scenarioOrder2 scenarioP2 = true ∧
    checkOrderRiskRun scenarioRM scenarioOrder2 scenarioP2 = none := by
  constructor <;>
    norm_num [checkOrderRiskDecision, checkOrderRiskRun, positionSizeExceeded,
      leverageExceeded, drawdownExceeded, dailyLossExceeded, concentrationExceeded,
      newConcentration, ddiv, DivResult.gtQ, scenarioRM, scenarioLimits, scenarioOrder2,
      Order.construct, Order.setPrice, Portfolio.init, Portfolio.getTotalValue,
      Portfolio.getPosition, Position.getMarketValue, scenarioP2, Portfolio.updatePosition,
      Portfolio.updateCash, Position.updatePosition, Position.new, setAssoc, List.lookup]

/-- C8 as amended: for every order passing checks 1–4, the call rejects if
and only if the concentration condition fires; in the scenario (cash
1,000,000, the stated limits), the 100-at-900 order and the follow-on
50-at-900 order (13.5%) pass all five checks — the evaluation reaches the
accept decision, though the call itself then fails to return (see the
re-lock defect) — and the further 20-at-900 order (15.3%) is rejected,
citing concentration. -/
theorem concentration_gate_iff_and_scenario
    (rm : RiskManager) (o : Order) (p : Portfolio)
    (h1 : positionSizeExceeded rm o p = false)
    (h2 : leverageExceeded rm o p = false)
    (h3 : drawdownExceeded rm p = false)
    (h4 : dailyLossExceeded rm p = false) :
    (checkOrderRiskRun rm o p = some (false, rm) ↔
      concentrationExceeded rm o p = true) ∧
    checkOrderRiskDecision scenarioRM scenarioOrder1 Portfolio.init = true ∧
    checkOrderRiskDecision scenarioRM scenarioOrder2 scenarioP2 = true ∧
    concentrationExceeded scenarioRM scenarioOrder3 scenarioP3 = true ∧
    checkOrderRiskRun scenarioRM scenarioOrder3 scenarioP3 = some (false, scenarioRM) := by
  refine ⟨?_, ?_, ?_, ?_, ?_⟩
  · constructor
    · intro hrun
      by_cases h5 : concentrationExceeded rm o p = true
      · exact h5
      · exfalso
        simp [checkOrderRiskRun, h1, h2, h3, h4, h5] at hrun
    · intro h5
      simp [checkOrderRiskRun, h1, h2, h3, h4, h5]
  · norm_num [checkOrderRiskDecision, positionSizeExceeded, leverageExceeded,
      drawdownExceeded, dailyLossExceeded, concentrationExceeded, newConcentration, ddiv,
      DivResult.gtQ, scenarioRM, scenarioLimits, scenarioOrder1, Order.construct,
      Order.setPrice, Portfolio.init, Portfolio.getTotalValue, Portfolio.getPosition,
      Position.getMarketValue]
  · norm_num [checkOrderRiskDecision, positionSizeExceeded, leverageExceeded,
      drawdownExceeded, dailyLossExceeded, concentrationExceeded, newConcentration, ddiv,
      DivResult.gtQ, scenarioRM, scenarioLimits, scenarioOrder2, Order.construct,
      Order.setPrice, Portfolio.init, Portfolio.getTotalValue, Portfolio.getPosition,
      Position.getMarketValue, scenarioP2, Portfolio.updatePosition, Portfolio.updateCash,
      Position.updatePosition, Position.new, setAssoc, List.lookup]
  · norm_num [concentrationExceeded, newConcentration, ddiv, DivResult.gtQ, scenarioRM,
      scenarioLimits, scenarioOrder3, Order.construct, Order.setPrice, Portfolio.init,
      Portfolio.getTotalValue, Portfolio.getPosition, Position.getMarketValue, scenarioP2,
      scenarioP3, Portfolio.updatePosition, Portfolio.updateCash, Position.updatePosition,
      Position.new, setAssoc, List.lookup]
  · norm_num [checkOrderRiskRun, checkOrderRiskDecision, positionSizeExceeded,
      leverageExceeded, drawdownExceeded, dailyLossExceeded, concentrationExceeded,
      newConcentration, ddiv, DivResult.gtQ, scenarioRM, scenarioLimits, scenarioOrder3,
      Order.construct, Order.setPrice, Portfolio.init, Portfolio.getTotalValue,
      Portfolio.getPosition, Position.getMarketValue, scenarioP2, scenarioP3,
      Portfolio.updatePosition, Portfolio.updateCash, Position.updatePosition, Position.new,
      setAssoc, List.lookup]

/-- C8 witness: the third scenario order passes checks 1–4, and the
rejection-iff-concentration equivalence holds there. -/
theorem concentration_gate_iff_and_scenario_witness :
    positionSizeExceeded scenarioRM scenarioOrder3 scenarioP3 = false ∧
    leverageExceeded scenarioRM scenarioOrder3 scenarioP3 = false ∧
    drawdownExceeded scenarioRM scenarioP3 = false ∧
    dailyLossExceeded scenarioRM scenarioP3 = false ∧
    (checkOrderRiskRun scenarioRM scenarioOrder3 scenarioP3 = some (false, scenarioRM) ↔
      concentrationExceeded scenarioRM scenarioOrder3 scenarioP3 = true) := by
  have h1 : positionSizeExceeded scenarioRM scenarioOrder3 scenarioP3 = false := by
    norm_num [positionSizeExceeded, ddiv, DivResult.gtQ, scenarioRM, scenarioLimits,
      scenarioOrder3, Order.construct, Order.setPrice, Portfolio.init, Portfolio.getTotalValue,
      Position.getMarketValue, scenarioP2, scenarioP3, Portfolio.updatePosition,
      Portfolio.updateCash, Position.updatePosition, Position.new, setAssoc, List.lookup]
  have h2 : leverageExceeded scenarioRM scenarioOrder3 scenarioP3 = false := by
    norm_num [leverageExceeded, ddiv, DivResult.gtQ, scenarioRM, scenarioLimits,
      scenarioOrder3, Order.construct, Order.setPrice, Portfolio.init, Portfolio.getTotalValue,
      Position.getMarketValue, scenarioP2, scenarioP3, Portfolio.updatePosition,
      Portfolio.updateCash, Position.updatePosition, Position.new, setAssoc, List.lookup]
  have h3 : drawdownExceeded scenarioRM scenarioP3 = false := by
    norm_num [drawdownExceeded, scenarioRM, scenarioLimits, scenarioP2, scenarioP3,
      Portfolio.init, Portfolio.updatePosition, Portfolio.updateCash, Position.updatePosition,
      Position.new, setAssoc, List.lookup]
  have h4 : dailyLossExceeded scenarioRM scenarioP3 = false := by
    norm_num [dailyLossExceeded, scenarioRM, scenarioLimits, scenarioP2, scenarioP3,
      Portfolio.init, Portfolio.updatePosition, Portfolio.updateCash, Position.updatePosition,
      Position.new, setAssoc, List.lookup]
  exact ⟨h1, h2, h3, h4,
    (concentration_gate_iff_and_scenario scenarioRM scenarioOrder3 scenarioP3 h1 h2 h3 h4).1⟩

/-- Neither `Portfolio` mutator touches any of the five aggregate fields. -/
theorem applyOp_aggregates (p : Portfolio) (op : PortfolioOp) :
    (applyOp p op).total_exposure = p.total_exposure ∧
    (applyOp p op).drawdown = p.drawdown ∧
    (applyOp p op).leverage = p.leverage ∧
    (applyOp p op).daily_pnl = p.daily_pnl ∧
    (applyOp p op).concentration = p.concentration := by
  cases op <;> simp [applyOp, Portfolio.updatePosition, Portfolio.updateCash]

/-- Folding any operation sequence preserves all five aggregates. -/
theorem applyOps_foldl_aggregates :
    ∀ (ops : List PortfolioOp) (p : Portfolio),
      (ops.foldl applyOp p).total_exposure = p.total_exposure ∧
      (ops.foldl applyOp p).drawdown = p.drawdown ∧
      (ops.foldl applyOp p).leverage = p.leverage ∧
      (ops.foldl applyOp p).daily_pnl = p.daily_pnl ∧
      (ops.foldl applyOp p).concentration = p.concentration := by
  intro ops
  induction ops with
  | nil => intro p; simp
  | cons op t ih =>
    intro p
    have h := applyOp_aggregates p op
    have ht := ih (applyOp p op)
    simp only [List.foldl_cons]
    exact ⟨ht.1.trans h.1, ht.2.1.trans h.2.1, ht.2.2.1.trans h.2.2.1,
      ht.2.2.2.1.trans h.2.2.2.1, ht.2.2.2.2.trans h.2.2.2.2⟩

/-- C9: after any sequence of `updatePosition` and `updateCash` operations
from the fresh portfolio, the five aggregates still hold their initial
values 0, 0, 1, 0, 0 (no operation in the core writes them, and the
`RiskManager` only reads them); consequently the leverage check's numerator
is 0 plus the order notional, and the drawdown and daily-loss checks reduce
to comparing the constant 0 against the configured limits. -/
theorem portfolio_aggregates_constant (ops : List PortfolioOp) :
    (applyOps ops).total_exposure = 0 ∧
    (applyOps ops).drawdown = 0 ∧
    (applyOps ops).leverage = 1 ∧
    (applyOps ops).daily_pnl = 0 ∧
    (applyOps ops).concentration = 0 ∧
    (∀ (rm : RiskManager) (o : Order),
      leverageExceeded rm o (applyOps ops) =
        (ddiv (0 + o.quantity * o.price)
          ((applyOps ops).getTotalValue rm.current_prices)).gtQ rm.limits.max_leverage ∧
      drawdownExceeded rm (applyOps ops) = decide (rm.limits.max_drawdown < 0) ∧
      dailyLossExceeded rm (applyOps ops) = decide ((0:ℚ) < -rm.limits.daily_loss_limit)) := by
  have h := applyOps_foldl_aggregates ops Portfolio.init
  have he : (applyOps ops).total_exposure = 0 := h.1
  have hd : (applyOps ops).drawdown = 0 := h.2.1
  have hl : (applyOps ops).leverage = 1 := h.2.2.1
  have hpn : (applyOps ops).daily_pnl = 0 := h.2.2.2.1
  have hc : (applyOps ops).concentration = 0 := h.2.2.2.2
  refine ⟨he, hd, hl, hpn, hc, ?_⟩
  intro rm o
  refine ⟨?_, ?_, ?_⟩
  · simp only [leverageExceeded, he]
  · simp only [drawdownExceeded, hd]
  · simp only [dailyLossExceeded, hpn]

end Trading
